import Mathlib

/-!
# Verification of the embedding worker (`python/embedding_worker.py`)

Shallow embedding of the embedding-generation pipeline of the repository:
device resolution, the process-wide model cache, adaptive OOM batch-size
recovery, and the fail-soft result assembly.

Modelling conventions:

* Hardware probes (`torch.cuda.is_available`, `torch.backends.mps`) become
  boolean fields of a `Hardware` record.
* Python exceptions become the inductive `PyExc`. `torch.cuda.OutOfMemoryError`,
  `MemoryError` and `RuntimeError` are modelled as distinct exception classes,
  matching the three distinct members of the `except` tuple in
  `embed_with_oom_recovery`.
* The external `SentenceTransformer` constructor and its `encode` method are
  oracles in an `Env` record.  `encode` is modelled by a per-call failure
  oracle (`encodeFail`) and, on success, one vector per input text computed by
  an opaque per-text function (`embedOne`) — the library's documented contract
  of returning an `(n, 768)` array for `n` inputs.
* The module-level singleton `_model`/`_device` is explicit state
  (`ModelState`) threaded through every function, also along error paths,
  because Python exceptions do not roll back global assignments.
* Wall-clock durations (`time.perf_counter`) are an abstract rational
  `Env.elapsedMs`; the `round(..., k)` decorations of the source are omitted.
  Peak-VRAM bookkeeping and `torch.cuda.empty_cache()` have no observable
  effect in the model.
-/

/-- Embedding vectors are opaque tokens: the numeric content of a
768-float vector plays no role in the verified control flow. -/
abbrev Vec := Nat

/-- Python exceptions visible to the worker, one constructor per class the
source distinguishes.  `str(e)` is `excMsg` below. -/
inductive PyExc where
  /-- `torch.cuda.OutOfMemoryError` (device allocator exhaustion). -/
  | cudaOOM (msg : String)
  /-- Host `MemoryError`. -/
  | memoryError (msg : String)
  /-- Generic `RuntimeError` with message. -/
  | runtimeError (msg : String)
  /-- `gpu_utils.GPUNotAvailableError`. -/
  | gpuNotAvailable (msg : String)
  /-- `gpu_utils.GPUOutOfMemoryError`. -/
  | gpuOOM (msg : String)
  /-- `gpu_utils.EmbeddingModelError`, carrying the `model_path` field. -/
  | embeddingModelError (msg : String) (modelPath : Option String)
  /-- Any other exception class. -/
  | otherError (msg : String)
deriving Repr, DecidableEq

/-- `str(e)`: all the error classes of `gpu_utils.py` call
`super().__init__(message)`, so `str` returns the message. -/
def excMsg : PyExc → String
  | .cudaOOM m => m
  | .memoryError m => m
  | .runtimeError m => m
  | .gpuNotAvailable m => m
  | .gpuOOM m => m
  | .embeddingModelError m _ => m
  | .otherError m => m

/-- `isinstance(e, RuntimeError)`. -/
def isRuntimeError : PyExc → Bool
  | .runtimeError _ => true
  | _ => false

/-- Membership in the `except (torch.cuda.OutOfMemoryError, MemoryError,
RuntimeError)` tuple of `embed_with_oom_recovery`. -/
def caughtByOomClause : PyExc → Bool
  | .cudaOOM _ => true
  | .memoryError _ => true
  | .runtimeError _ => true
  | _ => false

/-- `isinstance(e, (GPUNotAvailableError, EmbeddingModelError))`, the
re-raise tuple of `load_model`. -/
def reraisedByLoadModel : PyExc → Bool
  | .gpuNotAvailable _ => true
  | .embeddingModelError _ _ => true
  | _ => false

/-- Whether `pat` is a prefix of `s` (on character lists). -/
def isPrefixChars : List Char → List Char → Bool
  | [], _ => true
  | _ :: _, [] => false
  | p :: ps, c :: cs => p == c && isPrefixChars ps cs

/-- Whether `pat` occurs as a contiguous substring of `s` (character lists). -/
def containsChars (pat : List Char) : List Char → Bool
  | [] => isPrefixChars pat []
  | c :: rest => isPrefixChars pat (c :: rest) || containsChars pat rest

/-- Python's `pat in s` substring test. -/
def strContains (s pat : String) : Bool := containsChars pat.toList s.toList

/-- Python's `s.lower()` (character-wise lowering, as the source applies it
to ASCII exception messages). -/
def pyLower (s : String) : String := String.mk (s.toList.map Char.toLower)

/-- An out-of-memory-shaped failure: the exceptions that trigger backoff in
`embed_with_oom_recovery` (device allocator exhaustion, host `MemoryError`,
or a `RuntimeError` whose lower-cased message contains "out of memory"). -/
def isOomShaped : PyExc → Bool
  | .cudaOOM _ => true
  | .memoryError _ => true
  | .runtimeError msg => strContains (pyLower msg) "out of memory"
  | _ => false

/-- The hardware availability state probed by `torch`.  `mpsAvailable`
is the conjunction `hasattr(torch.backends, "mps") and
torch.backends.mps.is_available()` (always probed together). -/
structure Hardware where
  cudaAvailable : Bool
  mpsAvailable : Bool
deriving Repr, DecidableEq

/-- A loaded `SentenceTransformer` handle.  `dim` is
`get_sentence_embedding_dimension()`; `id` distinguishes handles. -/
structure Model where
  dim : Nat
  id : Nat := 0
deriving Repr, DecidableEq

/-- The external world of one worker process: hardware, the model directory
on disk, the `SentenceTransformer` constructor, the model's per-text
embedding map and the per-call failure behaviour of `encode`, and the
abstract wall-clock duration of the invocation. -/
structure Env where
  hw : Hardware
  /-- `MODEL_PATH.exists()`. -/
  modelPathExists : Bool
  /-- `(MODEL_PATH / f).exists()` for artifact file names `f`. -/
  fileExists : String → Bool
  /-- `str(MODEL_PATH)`. -/
  modelPath : String
  /-- `SentenceTransformer(str(MODEL_PATH), device=device, ...)`:
  either a loaded model or the exception the constructor raises. -/
  load : String → Except PyExc Model
  /-- The vector the loaded model computes for one (already prefixed) text. -/
  embedOne : Model → String → Vec
  /-- Failure behaviour of one `model.encode(texts, batch_size=·)` call;
  `none` in the second argument is a call that omits `batch_size`. -/
  encodeFail : List String → Option Nat → Option PyExc
  /-- Abstract elapsed wall-clock milliseconds of the invocation. -/
  elapsedMs : ℚ

/-- The module-level singleton: `_model` and `_device`. -/
structure ModelState where
  model : Option Model
  device : Option String
deriving Repr, DecidableEq

/-- The fresh singleton state of a new process (`_model = None`,
`_device = None`). -/
def initState : ModelState := ⟨none, none⟩

-- Constants of the source (`embedding_worker.py`).

def EMBEDDING_DIM : Nat := 768
def MODEL_NAME : String := "nomic-embed-text-v1.5"
def MODEL_VERSION : String := "1.5.0"
def PREFIX_DOCUMENT : String := "search_document: "
def PREFIX_QUERY : String := "search_query: "
def DEFAULT_BATCH_SIZE : Nat := 512
def MIN_BATCH_SIZE : Nat := 1

/-- The `"auto"` branch of `resolve_device`: CUDA, then MPS, then CPU. -/
def resolveAuto (hw : Hardware) : String :=
  if hw.cudaAvailable then "cuda:0"
  else if hw.mpsAvailable then "mps"
  else "cpu"

/-- `resolve_device(requested)`.  The source's recursive calls
`resolve_device("auto")` are unfolded to `resolveAuto` (the `"auto"` branch
of the same function). -/
def resolve_device (hw : Hardware) (requested : String) : String :=
  if requested = "auto" then resolveAuto hw
  else if requested.startsWith "cuda" then
    (if hw.cudaAvailable then requested else resolveAuto hw)
  else if requested = "mps" then
    (if hw.mpsAvailable then "mps" else resolveAuto hw)
  else requested

/-- The reference device-resolution function, written from the words
of the specification (for comparison with `resolve_device`): `"auto"` yields
`"cuda:0"` if CUDA is available, else `"mps"` if MPS is available, else
`"cpu"`; a request starting with `"cuda"` is returned verbatim if CUDA is
available and otherwise resolves as `"auto"`; `"mps"` is returned if MPS is
available and otherwise resolves as `"auto"`; any other string is returned
verbatim. -/
def resolveDeviceSpec (hw : Hardware) (requested : String) : String :=
  if requested = "auto" then
    (if hw.cudaAvailable then "cuda:0"
     else if hw.mpsAvailable then "mps"
     else "cpu")
  else if requested.startsWith "cuda" then
    (if hw.cudaAvailable then requested
     else if hw.cudaAvailable then "cuda:0"
     else if hw.mpsAvailable then "mps"
     else "cpu")
  else if requested = "mps" then
    (if hw.mpsAvailable then "mps"
     else if hw.cudaAvailable then "cuda:0"
     else if hw.mpsAvailable then "mps"
     else "cpu")
  else requested

/-- The three entries of `required` in `load_model`. -/
def requiredFiles : List String := ["config.json", "model.safetensors", "tokenizer.json"]

/-- Message of the missing-directory `EmbeddingModelError`. -/
def modelNotFoundMsg (path : String) : String :=
  "Model not found at " ++ path ++ ". Download with: " ++
  "huggingface-cli download nomic-ai/nomic-embed-text-v1.5 " ++
  "--local-dir models/nomic-embed-text-v1.5"

/-- Message of the missing-artifact-files `EmbeddingModelError`. -/
def missingFilesMsg (missing : List String) : String :=
  "Missing model files: " ++ toString missing

/-- Message of the dimension-mismatch `EmbeddingModelError`. -/
def wrongDimMsg (dim : Nat) : String :=
  "Wrong embedding dimension: " ++ toString dim ++ ", expected " ++ toString EMBEDDING_DIM

/-- Message of the wrapped load-failure `EmbeddingModelError`. -/
def loadFailedMsg (inner : String) : String := "Failed to load model: " ++ inner

/-- The cache-miss path of `load_model` (everything after the cached-model
check): precondition checks, constructor call, singleton assignment, and the
dimension check.  The returned `ModelState` is the singleton after the call:
the source assigns `_model`/`_device` *before* the dimension check, so the
dimension-mismatch error leaves the freshly loaded model cached. -/
def loadFresh (env : Env) (st : ModelState) (device : String) :
    Except PyExc Model × ModelState :=
  if ¬ env.modelPathExists then
    (.error (.embeddingModelError (modelNotFoundMsg env.modelPath) (some env.modelPath)), st)
  else if requiredFiles.filter (fun f => ¬ env.fileExists f) ≠ [] then
    (.error (.embeddingModelError
        (missingFilesMsg (requiredFiles.filter (fun f => ¬ env.fileExists f)))
        (some env.modelPath)), st)
  else
    match env.load device with
    | .error e =>
        if reraisedByLoadModel e then (.error e, st)
        else
          (.error (.embeddingModelError (loadFailedMsg (excMsg e)) (some env.modelPath)), st)
    | .ok m =>
        if m.dim ≠ EMBEDDING_DIM then
          (.error (.embeddingModelError (wrongDimMsg m.dim) (some env.modelPath)),
           ⟨some m, some device⟩)
        else (.ok m, ⟨some m, some device⟩)

/-- `load_model(device)`: resolve the device, return the cached model when
the singleton holds one bound to the same resolved device, otherwise load
fresh. -/
def load_model (env : Env) (st : ModelState) (device : String) :
    Except PyExc Model × ModelState :=
  match st.model with
  | some m =>
      if st.device = some (resolve_device env.hw device) then (.ok m, st)
      else loadFresh env st (resolve_device env.hw device)
  | none => loadFresh env st (resolve_device env.hw device)

/-- `embed_chunks(chunks, batch_size, device)`: empty input returns the empty
`(0, 768)` array before any model load; otherwise load the model, prefix
every chunk with `PREFIX_DOCUMENT`, and encode. -/
def embed_chunks (env : Env) (st : ModelState) (chunks : List String)
    (batch_size : Nat) (device : String) : Except PyExc (List Vec) × ModelState :=
  if chunks = [] then (.ok [], st)
  else
    match load_model env st device with
    | (.error e, st') => (.error e, st')
    | (.ok m, st') =>
        let prefixed := chunks.map (fun c => PREFIX_DOCUMENT ++ c)
        match env.encodeFail prefixed (some batch_size) with
        | some e => (.error e, st')
        | none => (.ok (prefixed.map (env.embedOne m)), st')

/-- `embed_query(query, device)`: load the model, prefix the query with
`PREFIX_QUERY`, encode the singleton list (no `batch_size` argument), and
return its only row. -/
def embed_query (env : Env) (st : ModelState) (query : String) (device : String) :
    Except PyExc Vec × ModelState :=
  match load_model env st device with
  | (.error e, st') => (.error e, st')
  | (.ok m, st') =>
      let prefixed := PREFIX_QUERY ++ query
      match env.encodeFail [prefixed] none with
      | some e => (.error e, st')
      | none => (.ok (env.embedOne m prefixed), st')

/-- The message of the `GPUOutOfMemoryError` raised when the `while` loop of
`embed_with_oom_recovery` exhausts all batch sizes. -/
def oomExhaustMsg (nChunks : Nat) (device : String) (initial : Nat) : String :=
  "OOM with " ++ toString nChunks ++ " chunks on " ++ device ++
  ". Tried batch sizes " ++ toString initial ++ " down to " ++
  toString MIN_BATCH_SIZE ++ "."

/-- The `while batch_size >= MIN_BATCH_SIZE` loop of
`embed_with_oom_recovery`, instrumented with the list of batch sizes at which
an embedding attempt was made (third component).  An attempt that fails with
an exception from the `except` tuple whose shape is out-of-memory halves the
batch size and recurs; a `RuntimeError` without "out of memory" in its
lower-cased message, and any exception outside the tuple, propagate.
`torch.cuda.empty_cache()` has no observable effect in the model, so the
`is_cuda` flag is carried but unused. -/
def embedOomLoop (env : Env) (chunks : List String) (device : String)
    (is_cuda : Bool) (initial : Nat) (st : ModelState) (bs : Nat) :
    Except PyExc (List Vec × Nat) × ModelState × List Nat :=
  if _h : MIN_BATCH_SIZE ≤ bs then
    match embed_chunks env st chunks bs device with
    | (.ok vecs, st') => (.ok (vecs, bs), st', [bs])
    | (.error e, st') =>
        if caughtByOomClause e then
          if isRuntimeError e && !strContains (pyLower (excMsg e)) "out of memory" then
            (.error e, st', [bs])
          else
            let r := embedOomLoop env chunks device is_cuda initial st' (bs / 2)
            (r.1, r.2.1, bs :: r.2.2)
        else (.error e, st', [bs])
  else
    (.error (.gpuOOM (oomExhaustMsg chunks.length device initial)), st, [])
termination_by bs
decreasing_by
  exact Nat.div_lt_self (Nat.lt_of_lt_of_le Nat.zero_lt_one _h) Nat.one_lt_two

/-- `embed_with_oom_recovery(chunks, initial_batch_size, device)`: run the
retry loop starting at `initial_batch_size` (the instrumentation trace
dropped). -/
def embed_with_oom_recovery (env : Env) (st : ModelState) (chunks : List String)
    (initial_batch_size : Nat) (device : String) :
    Except PyExc (List Vec × Nat) × ModelState :=
  let is_cuda := (resolve_device env.hw device).startsWith "cuda"
  let r := embedOomLoop env chunks device is_cuda initial_batch_size st initial_batch_size
  (r.1, r.2.1)

/-- The batch sizes at which `embed_with_oom_recovery` makes embedding
attempts (the instrumentation trace of the loop). -/
def oomAttempts (env : Env) (st : ModelState) (chunks : List String)
    (initial_batch_size : Nat) (device : String) : List Nat :=
  let is_cuda := (resolve_device env.hw device).startsWith "cuda"
  (embedOomLoop env chunks device is_cuda initial_batch_size st initial_batch_size).2.2

/-- The sequence of batch sizes obtained by repeated integer halving from
`n` down to `MIN_BATCH_SIZE` (= 1) inclusive. -/
def halvings (n : Nat) : List Nat :=
  if MIN_BATCH_SIZE ≤ n then n :: halvings (n / 2) else []
termination_by n
decreasing_by
  next h => exact Nat.div_lt_self (Nat.lt_of_lt_of_le Nat.zero_lt_one h) Nat.one_lt_two

/-- `EmbeddingResult` of the source, without the wall-clock/VRAM metric
fields that have no model (`vram_used_gb`) and with the durations kept
as exact rationals (the source's `round(·, k)` omitted). -/
structure EmbeddingResult where
  success : Bool
  embeddings : List Vec
  count : Nat
  elapsed_ms : ℚ
  ms_per_chunk : ℚ
  device : String
  batch_size : Nat
  model : String := MODEL_NAME
  model_version : String := MODEL_VERSION
  error : Option String := none
deriving Repr, DecidableEq

/-- `generate_embeddings(chunks, batch_size, device)`: resolve the device,
delegate to `embed_with_oom_recovery`, and package either the success record
or — for *any* exception — the failure record (`except Exception`). -/
def generate_embeddings (env : Env) (st : ModelState) (chunks : List String)
    (batch_size : Nat) (device : String) : EmbeddingResult × ModelState :=
  let resolved_device := resolve_device env.hw device
  match embed_with_oom_recovery env st chunks batch_size device with
  | (.ok (vecs, final_bs), st') =>
      ({ success := true
         embeddings := vecs
         count := chunks.length
         elapsed_ms := env.elapsedMs
         ms_per_chunk := if chunks ≠ [] then env.elapsedMs / chunks.length else 0
         device := resolved_device
         batch_size := final_bs
         error := none }, st')
  | (.error e, st') =>
      ({ success := false
         embeddings := []
         count := 0
         elapsed_ms := env.elapsedMs
         ms_per_chunk := 0
         device := resolved_device
         batch_size := batch_size
         error := some (excMsg e) }, st')

/-! ## Concrete fixtures: model stubs used to instantiate the theorems -/

/-- A well-formed model handle reporting dimension 768. -/
def mOk : Model := ⟨768, 0⟩

/-- A model handle reporting the wrong dimension 512. -/
def mBad : Model := ⟨512, 1⟩

/-- A CPU-only machine with a fully present model directory and an encode
stub that never fails. -/
def envOk : Env :=
  { hw := ⟨false, false⟩
    modelPathExists := true
    fileExists := fun _ => true
    modelPath := "/m/nomic-embed-text-v1.5"
    load := fun _ => .ok mOk
    embedOne := fun _ s => s.length
    encodeFail := fun _ _ => none
    elapsedMs := 7 }

/-- Like `envOk` but the encode stub raises `torch.cuda.OutOfMemoryError`
at every batch size of 256 or more and succeeds below. -/
def envOom256 : Env :=
  { envOk with encodeFail := fun _ bs =>
      match bs with
      | some b => if 256 ≤ b then some (.cudaOOM "CUDA out of memory.") else none
      | none => none }

/-- Like `envOk` but every sized encode attempt raises an OOM-shaped error. -/
def envAlwaysOom : Env :=
  { envOk with encodeFail := fun _ bs =>
      match bs with
      | some _ => some (.cudaOOM "CUDA out of memory.")
      | none => none }

/-- Like `envOk` but the encode stub raises a `RuntimeError` whose message is
not out-of-memory-shaped. -/
def envShapeErr : Env :=
  { envOk with
    encodeFail := fun _ _ => some (.runtimeError "mat1 and mat2 shapes cannot be multiplied") }

/-- Like `envOk` but the model directory is absent. -/
def envNoDir : Env := { envOk with modelPathExists := false }

/-- Like `envOk` but `tokenizer.json` is missing from the model directory. -/
def envNoTok : Env := { envOk with fileExists := fun f => f != "tokenizer.json" }

/-- Like `envOk` but the loaded model reports dimension 512. -/
def envBadDim : Env := { envOk with load := fun _ => .ok mBad }

/-- The singleton state after a successful load of `mOk` on `"cpu"`. -/
def stCpu : ModelState := ⟨some mOk, some "cpu"⟩

/-- The singleton state after a load of the mismatched `mBad` on `"cpu"`. -/
def stBad : ModelState := ⟨some mBad, some "cpu"⟩

/-! ## Helper lemmas -/

/-- A successful fresh load leaves the singleton bound to the freshly loaded
model and the device it was loaded to. -/
theorem loadFresh_ok {env : Env} {st st₂ : ModelState} {device : String} {m : Model}
    (h : loadFresh env st device = (.ok m, st₂)) :
    st₂ = ⟨some m, some device⟩ := by
  unfold loadFresh at h
  split at h
  · simp at h
  · split at h
    · simp at h
    · split at h
      · split at h <;> simp at h
      · split at h
        · simp at h
        · simp only [Prod.mk.injEq, Except.ok.injEq] at h
          rw [← h.1, h.2]

/-- A successful `load_model` leaves the singleton holding the returned model
bound to the resolved device. -/
theorem load_model_state {env : Env} {st st' : ModelState} {device : String} {m : Model}
    (h : load_model env st device = (.ok m, st')) :
    st'.model = some m ∧ st'.device = some (resolve_device env.hw device) := by
  unfold load_model at h
  split at h
  · split at h
    · simp only [Prod.mk.injEq, Except.ok.injEq] at h
      obtain ⟨h1, h2⟩ := h
      subst h2
      constructor
      · rw [← h1]; assumption
      · assumption
    · rw [loadFresh_ok h]; exact ⟨rfl, rfl⟩
  · rw [loadFresh_ok h]; exact ⟨rfl, rfl⟩

/-- Once `load_model` has succeeded, calling it again for the same requested
device is a cache hit: same model, no state change. -/
theorem load_model_stable {env : Env} {st st' : ModelState} {device : String} {m : Model}
    (h : load_model env st device = (.ok m, st')) :
    load_model env st' device = (.ok m, st') := by
  obtain ⟨h1, h2⟩ := load_model_state h
  unfold load_model
  rw [h2]
  split
  · next m₀ hm₀ =>
      rw [h1] at hm₀
      simp only [Option.some.injEq] at hm₀
      rw [hm₀, if_pos rfl]
  · next hm₀ => rw [h1] at hm₀; exact Option.noConfusion hm₀

/-- What `embed_chunks` does on a non-empty input once the model load is
known: consult the encode oracle on the document-prefixed texts, and on
success return one vector per prefixed text, in order. -/
theorem embed_chunks_of_load {env : Env} {st st' : ModelState} {device : String} {m : Model}
    {chunks : List String} (bs : Nat)
    (hne : chunks ≠ []) (h : load_model env st device = (.ok m, st')) :
    embed_chunks env st chunks bs device =
      (match env.encodeFail (chunks.map fun c => PREFIX_DOCUMENT ++ c) (some bs) with
       | some e => (.error e, st')
       | none => (.ok ((chunks.map fun c => PREFIX_DOCUMENT ++ c).map (env.embedOne m)), st')) := by
  unfold embed_chunks
  rw [if_neg hne, h]

/-- Cache-hit case of `load_model`. -/
theorem load_model_hit {env : Env} {st : ModelState} {device : String} {m : Model}
    (hm : st.model = some m) (hd : st.device = some (resolve_device env.hw device)) :
    load_model env st device = (.ok m, st) := by
  simp [load_model, hm, hd]

/-- Cache-miss case of `load_model`: the fresh-load path runs on the resolved
device. -/
theorem load_model_miss {env : Env} {st : ModelState} {device : String}
    (h : st.model = none ∨ st.device ≠ some (resolve_device env.hw device)) :
    load_model env st device = loadFresh env st (resolve_device env.hw device) := by
  rcases hm : st.model with _ | m
  · simp [load_model, hm]
  · rcases h with h | h
    · rw [hm] at h; exact Option.noConfusion h
    · simp [load_model, hm, h]

/-- Fresh-load path, missing model directory: fail before anything else. -/
theorem loadFresh_noDir {env : Env} {st : ModelState} {device : String}
    (h : env.modelPathExists = false) :
    loadFresh env st device =
      (.error (.embeddingModelError (modelNotFoundMsg env.modelPath)
        (some env.modelPath)), st) := by
  unfold loadFresh
  rw [if_pos (by simp [h])]

/-- Fresh-load path, missing artifact files: fail before the constructor. -/
theorem loadFresh_missing {env : Env} {st : ModelState} {device : String}
    (h1 : env.modelPathExists = true)
    (h2 : requiredFiles.filter (fun f => ¬ env.fileExists f) ≠ []) :
    loadFresh env st device =
      (.error (.embeddingModelError
        (missingFilesMsg (requiredFiles.filter fun f => ¬ env.fileExists f))
        (some env.modelPath)), st) := by
  unfold loadFresh
  rw [if_neg (by simp [h1]), if_pos h2]

/-- Fresh-load path, constructor succeeds but the reported dimension is
wrong: the singleton is assigned first, then the dimension check fails. -/
theorem loadFresh_wrongDim {env : Env} {st : ModelState} {device : String} {m : Model}
    (h1 : env.modelPathExists = true)
    (h2 : requiredFiles.filter (fun f => ¬ env.fileExists f) = [])
    (h3 : env.load device = .ok m)
    (h4 : m.dim ≠ EMBEDDING_DIM) :
    loadFresh env st device =
      (.error (.embeddingModelError (wrongDimMsg m.dim) (some env.modelPath)),
       ⟨some m, some device⟩) := by
  unfold loadFresh
  rw [if_neg (by simp [h1]), if_neg (by rw [h2]; simp)]
  simp only [h3]
  rw [if_pos h4]

/-- An out-of-memory-shaped exception is in the `except` tuple and does not
satisfy the re-raise condition of the loop. -/
theorem oomShaped_caught {e : PyExc} (h : isOomShaped e = true) :
    caughtByOomClause e = true ∧
    (isRuntimeError e && !strContains (pyLower (excMsg e)) "out of memory") = false := by
  cases e <;> simp_all [isOomShaped, caughtByOomClause, isRuntimeError, excMsg]

/-- Loop, exhausted case: batch size below the minimum. -/
theorem embedOomLoop_exhaust {env : Env} {st : ModelState} {chunks : List String}
    {device : String} {ic : Bool} {initial bs : Nat} (hbs : ¬ MIN_BATCH_SIZE ≤ bs) :
    embedOomLoop env chunks device ic initial st bs =
      (.error (.gpuOOM (oomExhaustMsg chunks.length device initial)), st, []) := by
  rw [embedOomLoop]
  exact dif_neg hbs

/-- Loop, successful attempt: return the vectors and the current batch size. -/
theorem embedOomLoop_ok {env : Env} {st st' : ModelState} {chunks : List String}
    {device : String} {ic : Bool} {initial bs : Nat} {vecs : List Vec}
    (hbs : MIN_BATCH_SIZE ≤ bs)
    (hok : embed_chunks env st chunks bs device = (.ok vecs, st')) :
    embedOomLoop env chunks device ic initial st bs = (.ok (vecs, bs), st', [bs]) := by
  rw [embedOomLoop, dif_pos hbs, hok]

/-- Loop, OOM-shaped failure: halve the batch size and retry from the state
the failed attempt left behind. -/
theorem embedOomLoop_retry {env : Env} {st st' : ModelState} {chunks : List String}
    {device : String} {ic : Bool} {initial bs : Nat} {e : PyExc}
    (hbs : MIN_BATCH_SIZE ≤ bs)
    (herr : embed_chunks env st chunks bs device = (.error e, st'))
    (hoom : isOomShaped e = true) :
    embedOomLoop env chunks device ic initial st bs =
      ((embedOomLoop env chunks device ic initial st' (bs / 2)).1,
       (embedOomLoop env chunks device ic initial st' (bs / 2)).2.1,
       bs :: (embedOomLoop env chunks device ic initial st' (bs / 2)).2.2) := by
  obtain ⟨hc, hcond⟩ := oomShaped_caught hoom
  rw [embedOomLoop, dif_pos hbs, herr]
  simp only [hc, if_true, hcond, Bool.false_eq_true, if_false]

/-- Loop, non-recoverable failure (outside the `except` tuple, or a
`RuntimeError` without "out of memory" in its message): propagate. -/
theorem embedOomLoop_raise {env : Env} {st st' : ModelState} {chunks : List String}
    {device : String} {ic : Bool} {initial bs : Nat} {e : PyExc}
    (hbs : MIN_BATCH_SIZE ≤ bs)
    (herr : embed_chunks env st chunks bs device = (.error e, st'))
    (hnot : caughtByOomClause e = false ∨
      (isRuntimeError e && !strContains (pyLower (excMsg e)) "out of memory") = true) :
    embedOomLoop env chunks device ic initial st bs = (.error e, st', [bs]) := by
  rw [embedOomLoop, dif_pos hbs, herr]
  rcases hnot with hnot | hnot
  · simp only [hnot, Bool.false_eq_true, if_false]
  · have hc : caughtByOomClause e = true := by
      cases e <;> simp_all [caughtByOomClause, isRuntimeError]
    simp only [hc, if_true, hnot, if_true]

/-- `halvings`, positive case. -/
theorem halvings_cons {n : Nat} (h : MIN_BATCH_SIZE ≤ n) :
    halvings n = n :: halvings (n / 2) := by
  rw [halvings]
  exact if_pos h

/-- `halvings`, base case. -/
theorem halvings_nil {n : Nat} (h : ¬ MIN_BATCH_SIZE ≤ n) : halvings n = [] := by
  rw [halvings]
  exact if_neg h

/-- Every batch size in a halving chain is at least the minimum (1): the
chain never contains 0. -/
theorem halvings_mem_pos {n b : Nat} (h : b ∈ halvings n) : MIN_BATCH_SIZE ≤ b := by
  induction n using Nat.strong_induction_on with
  | _ n ih =>
    by_cases hn : MIN_BATCH_SIZE ≤ n
    · rw [halvings_cons hn] at h
      rcases List.mem_cons.mp h with rfl | h
      · exact hn
      · exact ih (n / 2) (Nat.div_lt_self (Nat.lt_of_lt_of_le Nat.zero_lt_one hn) Nat.one_lt_two) h
    · rw [halvings_nil hn] at h
      exact absurd h (List.not_mem_nil b)

/-- Replaying the loop after the first model load: once `load_model` from
`st` yields `(m, st')`, the loop on a non-empty input behaves from `st`
exactly as from `st'`. -/
theorem embedOomLoop_shift {env : Env} {st st' : ModelState} {chunks : List String}
    {device : String} {ic : Bool} {initial bs : Nat} {m : Model}
    (hne : chunks ≠ [])
    (hload : load_model env st device = (.ok m, st'))
    (hbs : MIN_BATCH_SIZE ≤ bs) :
    embedOomLoop env chunks device ic initial st bs =
      embedOomLoop env chunks device ic initial st' bs := by
  have hstable := load_model_stable hload
  have h1 := embed_chunks_of_load bs hne hload
  have h2 := embed_chunks_of_load bs hne hstable
  conv_lhs => rw [embedOomLoop]
  conv_rhs => rw [embedOomLoop]
  simp only [dif_pos hbs]
  rw [h1, h2]

/-- Two-power halving steps compose. -/
theorem div_two_pow_succ (bs j : Nat) : bs / 2 / 2 ^ j = bs / 2 ^ (j + 1) := by
  rw [Nat.div_div_eq_div_mul, Nat.pow_succ']

/-- When every encode attempt fails with an out-of-memory-shaped exception,
the loop from a stable state walks the whole halving chain and raises the
exhaustion `GPUOutOfMemoryError`. -/
theorem embedOomLoop_allfail {env : Env} {st₀ : ModelState} {chunks : List String}
    {device : String} {ic : Bool} {initial : Nat} {m : Model}
    (hne : chunks ≠ [])
    (hst : load_model env st₀ device = (.ok m, st₀))
    (hfail : ∀ bs, MIN_BATCH_SIZE ≤ bs → ∃ e, isOomShaped e = true ∧
      env.encodeFail (chunks.map fun c => PREFIX_DOCUMENT ++ c) (some bs) = some e) :
    ∀ bs, embedOomLoop env chunks device ic initial st₀ bs =
      (.error (.gpuOOM (oomExhaustMsg chunks.length device initial)), st₀, halvings bs) := by
  intro bs
  induction bs using Nat.strong_induction_on with
  | _ bs ih =>
    by_cases hbs : MIN_BATCH_SIZE ≤ bs
    · obtain ⟨e, hoom, hfe⟩ := hfail bs hbs
      have herr : embed_chunks env st₀ chunks bs device = (.error e, st₀) := by
        rw [embed_chunks_of_load bs hne hst, hfe]
      rw [embedOomLoop_retry hbs herr hoom,
        ih (bs / 2) (Nat.div_lt_self (Nat.lt_of_lt_of_le Nat.zero_lt_one hbs) Nat.one_lt_two),
        halvings_cons hbs]
    · rw [embedOomLoop_exhaust hbs, halvings_nil hbs]

/-- When the first `k` attempts fail out-of-memory-shaped and the `(k+1)`-st
succeeds, the loop from a stable state returns the full mapped output at
batch size `bs / 2 ^ k`, having attempted exactly the `k + 1` halved batch
sizes. -/
theorem embedOomLoop_success {env : Env} {st₀ : ModelState} {chunks : List String}
    {device : String} {ic : Bool} {initial : Nat} {m : Model}
    (hne : chunks ≠ [])
    (hst : load_model env st₀ device = (.ok m, st₀)) :
    ∀ k bs,
      (∀ j < k, ∃ e, isOomShaped e = true ∧
        env.encodeFail (chunks.map fun c => PREFIX_DOCUMENT ++ c) (some (bs / 2 ^ j)) = some e) →
      env.encodeFail (chunks.map fun c => PREFIX_DOCUMENT ++ c) (some (bs / 2 ^ k)) = none →
      MIN_BATCH_SIZE ≤ bs / 2 ^ k →
      embedOomLoop env chunks device ic initial st₀ bs =
        (.ok ((chunks.map fun c => PREFIX_DOCUMENT ++ c).map (env.embedOne m), bs / 2 ^ k),
         st₀, (List.range (k + 1)).map fun j => bs / 2 ^ j) := by
  intro k
  induction k with
  | zero =>
    intro bs hf hs hp
    simp only [Nat.pow_zero, Nat.div_one] at hs hp
    have hok : embed_chunks env st₀ chunks bs device =
        (.ok ((chunks.map fun c => PREFIX_DOCUMENT ++ c).map (env.embedOne m)), st₀) := by
      rw [embed_chunks_of_load bs hne hst, hs]
    rw [embedOomLoop_ok hp hok]
    simp [List.range_succ]
  | succ k ih =>
    intro bs hf hs hp
    have hbs : MIN_BATCH_SIZE ≤ bs :=
      le_trans hp (Nat.div_le_self bs (2 ^ (k + 1)))
    obtain ⟨e, hoom, hfe⟩ := hf 0 (Nat.succ_pos k)
    simp only [Nat.pow_zero, Nat.div_one] at hfe
    have herr : embed_chunks env st₀ chunks bs device = (.error e, st₀) := by
      rw [embed_chunks_of_load bs hne hst, hfe]
    have hf' : ∀ j < k, ∃ e, isOomShaped e = true ∧
        env.encodeFail (chunks.map fun c => PREFIX_DOCUMENT ++ c)
          (some (bs / 2 / 2 ^ j)) = some e := by
      intro j hj
      rw [div_two_pow_succ]
      exact hf (j + 1) (Nat.succ_lt_succ hj)
    have hs' : env.encodeFail (chunks.map fun c => PREFIX_DOCUMENT ++ c)
        (some (bs / 2 / 2 ^ k)) = none := by
      rw [div_two_pow_succ]; exact hs
    have hp' : MIN_BATCH_SIZE ≤ bs / 2 / 2 ^ k := by
      rw [div_two_pow_succ]; exact hp
    rw [embedOomLoop_retry hbs herr hoom, ih (bs / 2) hf' hs' hp']
    simp [div_two_pow_succ, List.range_succ_eq_map, List.map_map, Function.comp,
      Nat.succ_eq_add_one]

/-- A halving chain started at a positive size reaches the minimum (1). -/
theorem halvings_mem_one {n : Nat} (h : MIN_BATCH_SIZE ≤ n) : 1 ∈ halvings n := by
  induction n using Nat.strong_induction_on with
  | _ n ih =>
    have h1 : 1 ≤ n := h
    rw [halvings_cons h]
    rcases Nat.lt_or_ge n 2 with hn | hn
    · have hn1 : n = 1 := by omega
      subst hn1
      exact List.mem_cons_self 1 _
    · refine List.mem_cons_of_mem n (ih (n / 2) ?_ ?_)
      · exact Nat.div_lt_self (by omega) Nat.one_lt_two
      · show (1 : Nat) ≤ n / 2
        omega

/-! ## Claim theorems -/

/-- **C5**: `resolve_device` equals the reference function from the spec for
every requested string and every hardware configuration: `"auto"` yields
`"cuda:0"` if CUDA is available, else `"mps"` if MPS is available, else
`"cpu"`; a request starting with `"cuda"` is returned verbatim if CUDA is
available and otherwise resolves as `"auto"`; `"mps"` is returned if MPS is
available and otherwise resolves as `"auto"`; any other string is returned
verbatim regardless of hardware state.  (Both functions are total, so
resolution never raises.) -/
theorem C5_resolve_device_matches_spec (hw : Hardware) (requested : String) :
    resolve_device hw requested = resolveDeviceSpec hw requested := by
  rcases hw with ⟨cu, mp⟩
  cases cu <;> cases mp <;>
    simp [resolve_device, resolveDeviceSpec, resolveAuto]

/-- **C6**: `load_model` is keyed by the resolved device: a cached model
bound to the resolved device of the new request is returned unchanged with
no reload; otherwise the cache-miss path (`loadFresh`) runs, and whenever it
returns a model it binds that model to the newly resolved device in the
singleton. -/
theorem C6_model_cache_keyed_by_resolved_device (env : Env) (st : ModelState)
    (device : String) :
    (∀ m, st.model = some m → st.device = some (resolve_device env.hw device) →
      load_model env st device = (.ok m, st)) ∧
    (st.model = none ∨ st.device ≠ some (resolve_device env.hw device) →
      load_model env st device = loadFresh env st (resolve_device env.hw device)) ∧
    (∀ m₂ st₂, loadFresh env st (resolve_device env.hw device) = (.ok m₂, st₂) →
      st₂ = ⟨some m₂, some (resolve_device env.hw device)⟩) := by
  exact ⟨fun m hm hd => load_model_hit hm hd, fun h => load_model_miss h,
    fun m₂ st₂ h => loadFresh_ok h⟩

/-- Witness for C6 at a concrete input: with `mOk` cached for `"cpu"` and a
new `"cpu"` request, `load_model` is a cache hit returning the cached model
with the state unchanged. -/
theorem C6_witness :
    stCpu.model = some mOk ∧
    stCpu.device = some (resolve_device envOk.hw "cpu") ∧
    load_model envOk stCpu "cpu" = (.ok mOk, stCpu) :=
  ⟨rfl, rfl, (C6_model_cache_keyed_by_resolved_device envOk stCpu "cpu").1 mOk rfl rfl⟩

/-- **C7**: the cache-miss path checks its preconditions in order — model
directory first, then the three required artifact files — raising an
`EmbeddingModelError` carrying the attempted path while never consulting the
model constructor (the result is the same for every constructor oracle `g`);
after a successful construction it checks the reported dimension against 768
and raises an `EmbeddingModelError` on mismatch. -/
theorem C7_load_precondition_checks (env : Env) (st : ModelState) (device : String) :
    (env.modelPathExists = false →
      ∀ g, loadFresh { env with load := g } st device =
        (.error (.embeddingModelError (modelNotFoundMsg env.modelPath)
          (some env.modelPath)), st)) ∧
    (env.modelPathExists = true →
      requiredFiles.filter (fun f => ¬ env.fileExists f) ≠ [] →
      ∀ g, loadFresh { env with load := g } st device =
        (.error (.embeddingModelError
          (missingFilesMsg (requiredFiles.filter fun f => ¬ env.fileExists f))
          (some env.modelPath)), st)) ∧
    (∀ m, env.modelPathExists = true →
      requiredFiles.filter (fun f => ¬ env.fileExists f) = [] →
      env.load device = .ok m → m.dim ≠ EMBEDDING_DIM →
      loadFresh env st device =
        (.error (.embeddingModelError (wrongDimMsg m.dim) (some env.modelPath)),
         ⟨some m, some device⟩)) := by
  refine ⟨?_, ?_, ?_⟩
  · intro h g
    exact loadFresh_noDir h
  · intro h1 h2 g
    exact loadFresh_missing h1 h2
  · intro m h1 h2 h3 h4
    exact loadFresh_wrongDim h1 h2 h3 h4

/-- Witness for C7 at a concrete input: with `tokenizer.json` missing, the
fresh-load path fails with the missing-files error carrying the model path,
for an arbitrary constructor stub (here one that would return `mBad`). -/
theorem C7_witness :
    envNoTok.modelPathExists = true ∧
    requiredFiles.filter (fun f => ¬ envNoTok.fileExists f) ≠ [] ∧
    loadFresh { envNoTok with load := fun _ => .ok mBad } initState "cpu" =
      (.error (.embeddingModelError (missingFilesMsg ["tokenizer.json"])
        (some "/m/nomic-embed-text-v1.5")), initState) :=
  ⟨rfl, by decide,
   (C7_load_precondition_checks envNoTok initState "cpu").2.1 rfl (by decide)
     (fun _ => .ok mBad)⟩

/-- **C10**: `load_model` is not atomic on a dimension-mismatch failure: the
singleton is assigned before the 768 check, so the failing call leaves the
mismatched model cached and bound to the resolved device, and a subsequent
call for the same device is a cache hit that returns the mismatched model
without raising and without re-checking the dimension. -/
theorem C10_dim_mismatch_leaves_model_cached (env : Env) (st : ModelState)
    (device : String) (m : Model)
    (hmiss : st.model = none ∨ st.device ≠ some (resolve_device env.hw device))
    (hdir : env.modelPathExists = true)
    (hfiles : requiredFiles.filter (fun f => ¬ env.fileExists f) = [])
    (hload : env.load (resolve_device env.hw device) = .ok m)
    (hdim : m.dim ≠ EMBEDDING_DIM) :
    load_model env st device =
      (.error (.embeddingModelError (wrongDimMsg m.dim) (some env.modelPath)),
       ⟨some m, some (resolve_device env.hw device)⟩) ∧
    load_model env (⟨some m, some (resolve_device env.hw device)⟩ : ModelState) device =
      (.ok m, ⟨some m, some (resolve_device env.hw device)⟩) := by
  constructor
  · rw [load_model_miss hmiss, loadFresh_wrongDim hdir hfiles hload hdim]
  · exact load_model_hit rfl rfl

/-- Witness for C10 at a concrete input: loading a 512-dimensional model on a
fresh process raises the dimension error but caches the model, and the next
`load_model` call for the same device returns the mismatched model. -/
theorem C10_witness :
    mBad.dim ≠ EMBEDDING_DIM ∧
    load_model envBadDim initState "cpu" =
      (.error (.embeddingModelError (wrongDimMsg 512)
        (some "/m/nomic-embed-text-v1.5")), stBad) ∧
    load_model envBadDim stBad "cpu" = (.ok mBad, stBad) := by
  have h := C10_dim_mismatch_leaves_model_cached envBadDim initState "cpu" mBad
    (Or.inl rfl) rfl (by decide) rfl (by decide)
  exact ⟨by decide, h.1, h.2⟩

/-- **C8**: for an empty input sequence and any batch size ≥ 1,
`embed_with_oom_recovery` returns an empty embedding sequence at the first
attempt with the batch size unchanged and the singleton untouched (the
statement holds for every `env`, so no model load can have been consulted),
and the pipeline result has `success`, `count == 0`, empty embeddings and
per-item latency 0. -/
theorem C8_empty_input_short_circuit (env : Env) (st : ModelState) (batch_size : Nat)
    (device : String) (hbs : MIN_BATCH_SIZE ≤ batch_size) :
    embed_with_oom_recovery env st [] batch_size device = (.ok ([], batch_size), st) ∧
    oomAttempts env st [] batch_size device = [batch_size] ∧
    generate_embeddings env st [] batch_size device =
      ({ success := true, embeddings := [], count := 0, elapsed_ms := env.elapsedMs,
         ms_per_chunk := 0, device := resolve_device env.hw device,
         batch_size := batch_size, error := none }, st) := by
  have hok : embed_chunks env st [] batch_size device = (.ok [], st) := by
    simp [embed_chunks]
  have h1 : embed_with_oom_recovery env st [] batch_size device =
      (.ok ([], batch_size), st) := by
    simp only [embed_with_oom_recovery]
    rw [embedOomLoop_ok hbs hok]
  have h2 : oomAttempts env st [] batch_size device = [batch_size] := by
    simp only [oomAttempts]
    rw [embedOomLoop_ok hbs hok]
  refine ⟨h1, h2, ?_⟩
  simp only [generate_embeddings, h1]
  rfl

/-- Witness for C8 at a concrete input: the empty list with the default
batch size 512 on a fresh process. -/
theorem C8_witness :
    MIN_BATCH_SIZE ≤ 512 ∧
    embed_with_oom_recovery envOk initState [] 512 "cpu" = (.ok ([], 512), initState) ∧
    oomAttempts envOk initState [] 512 "cpu" = [512] ∧
    generate_embeddings envOk initState [] 512 "cpu" =
      ({ success := true, embeddings := [], count := 0, elapsed_ms := envOk.elapsedMs,
         ms_per_chunk := 0, device := "cpu", batch_size := 512, error := none },
       initState) := by
  have h := C8_empty_input_short_circuit envOk initState 512 "cpu" (by decide)
  exact ⟨by decide, h.1, h.2.1, h.2.2⟩

/-- **C9**: `embed_chunks` hands the model exactly the input texts prefixed
with `"search_document: "` (both the failure oracle and the per-text map see
only prefixed texts, in input order), `embed_query` prefixes the query with
`"search_query: "`, and the two prefixes are distinct strings. -/
theorem C9_task_prefixes (env : Env) (st st' : ModelState) (device : String) (m : Model) :
    (∀ chunks (bs : Nat), chunks ≠ [] → load_model env st device = (.ok m, st') →
      embed_chunks env st chunks bs device =
        (match env.encodeFail (chunks.map fun c => PREFIX_DOCUMENT ++ c) (some bs) with
         | some e => (.error e, st')
         | none =>
            (.ok ((chunks.map fun c => PREFIX_DOCUMENT ++ c).map (env.embedOne m)), st'))) ∧
    (∀ query, load_model env st device = (.ok m, st') →
      embed_query env st query device =
        (match env.encodeFail [PREFIX_QUERY ++ query] none with
         | some e => (.error e, st')
         | none => (.ok (env.embedOne m (PREFIX_QUERY ++ query)), st'))) ∧
    PREFIX_DOCUMENT ≠ PREFIX_QUERY := by
  refine ⟨fun chunks bs hne h => embed_chunks_of_load bs hne h, ?_, by decide⟩
  intro query h
  simp only [embed_query, h]

/-- Witness for C9 at a concrete input: one chunk and one query on a fresh
process. -/
theorem C9_witness :
    (["hello"] : List String) ≠ [] ∧
    embed_chunks envOk initState ["hello"] 32 "cpu" =
      (match envOk.encodeFail (["hello"].map fun c => PREFIX_DOCUMENT ++ c) (some 32) with
       | some e => (.error e, stCpu)
       | none =>
          (.ok ((["hello"].map fun c => PREFIX_DOCUMENT ++ c).map (envOk.embedOne mOk)),
           stCpu)) ∧
    embed_query envOk initState "needle" "cpu" =
      (match envOk.encodeFail [PREFIX_QUERY ++ "needle"] none with
       | some e => (.error e, stCpu)
       | none => (.ok (envOk.embedOne mOk (PREFIX_QUERY ++ "needle")), stCpu)) := by
  have h := C9_task_prefixes envOk initState stCpu "cpu" mOk
  exact ⟨by simp, h.1 ["hello"] 32 (by simp) rfl, h.2.1 "needle" rfl⟩

/-- **C4**: `generate_embeddings` never raises: every error from the
embedding step becomes a result record with `success = false`, empty
embeddings, `count = 0`, the elapsed time, and the exception's message as
`error`; on success the record has `success = true` and `error = none`. -/
theorem C4_generate_embeddings_fail_soft (env : Env) (st : ModelState)
    (chunks : List String) (batch_size : Nat) (device : String) :
    (∀ e st', embed_with_oom_recovery env st chunks batch_size device = (.error e, st') →
      generate_embeddings env st chunks batch_size device =
        ({ success := false, embeddings := [], count := 0, elapsed_ms := env.elapsedMs,
           ms_per_chunk := 0, device := resolve_device env.hw device,
           batch_size := batch_size, error := some (excMsg e) }, st')) ∧
    (∀ vecs fbs st',
      embed_with_oom_recovery env st chunks batch_size device = (.ok (vecs, fbs), st') →
      generate_embeddings env st chunks batch_size device =
        ({ success := true, embeddings := vecs, count := chunks.length,
           elapsed_ms := env.elapsedMs,
           ms_per_chunk := if chunks ≠ [] then env.elapsedMs / chunks.length else 0,
           device := resolve_device env.hw device, batch_size := fbs,
           error := none }, st')) := by
  constructor
  · intro e st' h
    simp only [generate_embeddings, h]
  · intro vecs fbs st' h
    simp only [generate_embeddings, h]

/-- Witness for C4 at a concrete input: a non-OOM `RuntimeError` from the
model is captured into a `success = false` record with `count == 0` and the
message as `error`, not raised. -/
theorem C4_witness :
    embed_with_oom_recovery envShapeErr initState ["a"] 4 "cpu" =
      (.error (.runtimeError "mat1 and mat2 shapes cannot be multiplied"), stCpu) ∧
    generate_embeddings envShapeErr initState ["a"] 4 "cpu" =
      ({ success := false, embeddings := [], count := 0,
         elapsed_ms := envShapeErr.elapsedMs, ms_per_chunk := 0, device := "cpu",
         batch_size := 4,
         error := some "mat1 and mat2 shapes cannot be multiplied" }, stCpu) := by
  have herr : embed_chunks envShapeErr initState ["a"] 4 "cpu" =
      (.error (.runtimeError "mat1 and mat2 shapes cannot be multiplied"), stCpu) := rfl
  have hrec : embed_with_oom_recovery envShapeErr initState ["a"] 4 "cpu" =
      (.error (.runtimeError "mat1 and mat2 shapes cannot be multiplied"), stCpu) := by
    simp only [embed_with_oom_recovery]
    rw [embedOomLoop_raise (by decide) herr (Or.inr (by decide))]
  exact ⟨hrec,
    (C4_generate_embeddings_fail_soft envShapeErr initState ["a"] 4 "cpu").1 _ _ hrec⟩

/-- **C3**: inside the retry loop, an attempt that fails with an
out-of-memory-shaped exception (device allocator exhaustion, host
`MemoryError`, or a `RuntimeError` whose message indicates out-of-memory)
halves the batch size and retries, while a `RuntimeError` whose message does
not indicate out-of-memory is propagated immediately, with no further
attempt. -/
theorem C3_oom_shaped_retries_others_propagate {env : Env} {st st' : ModelState}
    {chunks : List String} {device : String} {ic : Bool} {initial bs : Nat} {e : PyExc}
    (hbs : MIN_BATCH_SIZE ≤ bs)
    (herr : embed_chunks env st chunks bs device = (.error e, st')) :
    (isOomShaped e = true →
      embedOomLoop env chunks device ic initial st bs =
        ((embedOomLoop env chunks device ic initial st' (bs / 2)).1,
         (embedOomLoop env chunks device ic initial st' (bs / 2)).2.1,
         bs :: (embedOomLoop env chunks device ic initial st' (bs / 2)).2.2)) ∧
    (isRuntimeError e = true → strContains (pyLower (excMsg e)) "out of memory" = false →
      embedOomLoop env chunks device ic initial st bs = (.error e, st', [bs])) :=
  ⟨fun h => embedOomLoop_retry hbs herr h,
   fun h1 h2 => embedOomLoop_raise hbs herr (Or.inr (by rw [h1, h2]; rfl))⟩

/-- Witness for C3 at a concrete input: a shape-mismatch `RuntimeError`
propagates out of the loop after a single attempt. -/
theorem C3_witness :
    isRuntimeError (.runtimeError "mat1 and mat2 shapes cannot be multiplied") = true ∧
    strContains (pyLower "mat1 and mat2 shapes cannot be multiplied") "out of memory"
      = false ∧
    embedOomLoop envShapeErr ["a"] "cpu" false 4 initState 4 =
      (.error (.runtimeError "mat1 and mat2 shapes cannot be multiplied"), stCpu, [4]) := by
  have herr : embed_chunks envShapeErr initState ["a"] 4 "cpu" =
      (.error (.runtimeError "mat1 and mat2 shapes cannot be multiplied"), stCpu) := rfl
  exact ⟨rfl, by decide,
    (C3_oom_shaped_retries_others_propagate (by decide) herr).2 rfl (by decide)⟩

/-- **C1**: for a non-empty input whose first `k` attempts (at the halved
batch sizes `initial / 2 ^ j`) fail with OOM-shaped errors and whose
`(k+1)`-st attempt succeeds, `embed_with_oom_recovery` returns the
embeddings of the entire input — one vector per input text, in order — paired
with that succeeding batch size, having attempted exactly the halved batch
sizes down to it. -/
theorem C1_oom_recovery_first_success (env : Env) (st st' : ModelState)
    (chunks : List String) (device : String) (m : Model) (initial k : Nat)
    (hne : chunks ≠ [])
    (hload : load_model env st device = (.ok m, st'))
    (hfail : ∀ j < k, ∃ e, isOomShaped e = true ∧
      env.encodeFail (chunks.map fun c => PREFIX_DOCUMENT ++ c)
        (some (initial / 2 ^ j)) = some e)
    (hsucc : env.encodeFail (chunks.map fun c => PREFIX_DOCUMENT ++ c)
      (some (initial / 2 ^ k)) = none)
    (hpos : MIN_BATCH_SIZE ≤ initial / 2 ^ k) :
    embed_with_oom_recovery env st chunks initial device =
      (.ok ((chunks.map fun c => PREFIX_DOCUMENT ++ c).map (env.embedOne m),
        initial / 2 ^ k), st') ∧
    ((chunks.map fun c => PREFIX_DOCUMENT ++ c).map (env.embedOne m)).length
      = chunks.length ∧
    oomAttempts env st chunks initial device =
      (List.range (k + 1)).map fun j => initial / 2 ^ j := by
  have hstable := load_model_stable hload
  have hinit : MIN_BATCH_SIZE ≤ initial :=
    le_trans hpos (Nat.div_le_self initial (2 ^ k))
  refine ⟨?_, by simp, ?_⟩
  · simp only [embed_with_oom_recovery]
    rw [embedOomLoop_shift hne hload hinit,
      embedOomLoop_success hne hstable k initial hfail hsucc hpos]
  · simp only [oomAttempts]
    rw [embedOomLoop_shift hne hload hinit,
      embedOomLoop_success hne hstable k initial hfail hsucc hpos]

/-- Witness for C1 at a concrete input: the spec's backoff scenario — OOM at
batch sizes 512 and 256, success at 128 — returns all vectors at batch size
`512 / 2 ^ 2 = 128` after attempts `[512, 256, 128]`. -/
theorem C1_witness :
    (["alpha", "beta"] : List String) ≠ [] ∧
    embed_with_oom_recovery envOom256 initState ["alpha", "beta"] 512 "cpu" =
      (.ok (((["alpha", "beta"] : List String).map fun c => PREFIX_DOCUMENT ++ c).map
        (envOom256.embedOne mOk), 512 / 2 ^ 2), stCpu) ∧
    oomAttempts envOom256 initState ["alpha", "beta"] 512 "cpu" =
      (List.range 3).map fun j => 512 / 2 ^ j := by
  have h := C1_oom_recovery_first_success envOom256 initState stCpu ["alpha", "beta"]
    "cpu" mOk 512 2 (by simp) rfl
    (by intro j hj; interval_cases j <;> exact ⟨.cudaOOM "CUDA out of memory.", rfl, rfl⟩)
    rfl (by decide)
  exact ⟨by simp, h.1, h.2.2⟩

/-- **C2**: when every attempt fails with an OOM-shaped error,
`embed_with_oom_recovery` attempts exactly the batch sizes obtained by
repeated integer halving from the initial size down to the minimum 1
inclusive, never attempts batch size 0, and raises the `GPUOutOfMemoryError`
whose message carries the chunk count, the device, and the attempted batch
size range. -/
theorem C2_oom_exhaustion_walks_halvings (env : Env) (st st' : ModelState)
    (chunks : List String) (device : String) (m : Model) (initial : Nat)
    (hne : chunks ≠ [])
    (hinit : MIN_BATCH_SIZE ≤ initial)
    (hload : load_model env st device = (.ok m, st'))
    (hfail : ∀ bs, MIN_BATCH_SIZE ≤ bs → ∃ e, isOomShaped e = true ∧
      env.encodeFail (chunks.map fun c => PREFIX_DOCUMENT ++ c) (some bs) = some e) :
    embed_with_oom_recovery env st chunks initial device =
      (.error (.gpuOOM (oomExhaustMsg chunks.length device initial)), st') ∧
    oomAttempts env st chunks initial device = halvings initial ∧
    (∀ b ∈ oomAttempts env st chunks initial device, MIN_BATCH_SIZE ≤ b) ∧
    MIN_BATCH_SIZE ∈ oomAttempts env st chunks initial device := by
  have hstable := load_model_stable hload
  have hA : oomAttempts env st chunks initial device = halvings initial := by
    simp only [oomAttempts]
    rw [embedOomLoop_shift hne hload hinit, embedOomLoop_allfail hne hstable hfail initial]
  have hR : embed_with_oom_recovery env st chunks initial device =
      (.error (.gpuOOM (oomExhaustMsg chunks.length device initial)), st') := by
    simp only [embed_with_oom_recovery]
    rw [embedOomLoop_shift hne hload hinit, embedOomLoop_allfail hne hstable hfail initial]
  refine ⟨hR, hA, ?_, ?_⟩
  · intro b hb
    rw [hA] at hb
    exact halvings_mem_pos hb
  · rw [hA]
    exact halvings_mem_one hinit

/-- Witness for C2 at a concrete input: the spec's exhaustion scenario — an
always-OOM model stub with initial batch size 4 attempts `[4, 2, 1]` and
raises the exhaustion error. -/
theorem C2_witness :
    (["x"] : List String) ≠ [] ∧
    embed_with_oom_recovery envAlwaysOom initState ["x"] 4 "cpu" =
      (.error (.gpuOOM (oomExhaustMsg 1 "cpu" 4)), stCpu) ∧
    oomAttempts envAlwaysOom initState ["x"] 4 "cpu" = halvings 4 ∧
    halvings 4 = [4, 2, 1] := by
  have h := C2_oom_exhaustion_walks_halvings envAlwaysOom initState stCpu ["x"]
    "cpu" mOk 4 (by simp) (by decide) rfl
    (fun bs _ => ⟨.cudaOOM "CUDA out of memory.", rfl, rfl⟩)
  refine ⟨by simp, h.1, h.2.1, ?_⟩
  simp [halvings, MIN_BATCH_SIZE]
